import Mathlib

/-
Verification of `src/scripts/spellcheck-installer.py` (ungoogled-software-contrib).

The script scrapes a chromium directory-listing page for `.bdic` dictionary
files, downloads a selected one (base64-encoded), decodes it, and writes it
into existing configuration directories (OS install, Flatpak install, or a
user-supplied custom directory).

Shallow embedding notes:
* HTTP is modelled by a function `net : String → HttpResponse` mapping a URL to
  the response the server would give, and HTML parsing (BeautifulSoup
  `find_all("a", class_="FileList-itemLink")` plus `get_text(strip=True)` /
  `get("href")`) is modelled by a function `parse : String → List Anchor`
  returning the stripped visible labels and href targets of the file-list
  anchors of a page.  Both are at the I/O boundary of the script.
* Python exceptions are modelled with `Except Err`.
* Raw bytes are modelled as `List Nat` (one entry per byte).
* Python `dict` comprehension semantics (insertion order, later duplicate keys
  overwrite the stored value in place) are modelled by `dictInsert` on an
  association list.
* The filesystem is modelled by the set (list) of existing directory paths for
  existence checks, and writes are recorded as a `(path, bytes)` trace; a
  directory content is an association list from path to bytes (`fsWrite`).
-/

set_option autoImplicit false

/-- `repo_url` constant of the script (line 42). -/
def repo_url : String := "https://chromium.googlesource.com"

/-- `file_ext` constant of the script (line 43). -/
def file_ext : String := ".bdic"

/-- URL of the directory listing page (line 52). -/
def listing_url : String := repo_url ++ "/chromium/deps/hunspell_dictionaries/+/master"

/-- An HTTP response: status code and body text (models the parts of
`requests.Response` that the script reads). -/
structure HttpResponse where
  status : Nat
  text : String
deriving DecidableEq

/-- A parsed anchor element of the listing page: stripped visible label
(`link.get_text(strip=True)`) and link target (`link.get("href")`). -/
structure Anchor where
  text : String
  href : String
deriving DecidableEq

/-- The exceptions the script can raise: the two `raise Exception(...)` fetch
failures, `binascii.Error` from `base64.b64decode`, and `KeyError` from
`links_dict[lang_code]`. -/
inductive Err where
  | fetchError : String → Err
  | decodeError : String → Err
  | keyError : String → Err
deriving DecidableEq

/-- Python `str.replace(old, "")` on char lists: scan left to right, remove
each non-overlapping occurrence of `old`.  `fuel` bounds the recursion by the
length of the scanned list so the function is structurally recursive. -/
def replaceAllFuel : Nat → List Char → List Char → List Char
  | 0, _, _ => []
  | _ + 1, _, [] => []
  | fuel + 1, old, c :: rest =>
    if old.isPrefixOf (c :: rest) then
      replaceAllFuel fuel old (rest.drop (old.length - 1))
    else c :: replaceAllFuel fuel old rest

/-- `s.replace(old, "")` for a nonempty pattern `old` (Python string replace
with the empty string as replacement, as used on line 64 of the script). -/
def removeOccurrences (old s : String) : String :=
  String.mk (replaceAllFuel s.data.length old.data s.data)

/-- `link_text.endswith(file_ext)` (line 66). -/
def endsWithExt (s : String) : Bool :=
  file_ext.data.isSuffixOf s.data

/-- Insertion into a Python `dict` modelled as an association list: a later
binding for an existing key overwrites the stored value in place, a new key is
appended (Python dicts preserve insertion order). -/
def dictInsert (d : List (String × String)) (k v : String) : List (String × String) :=
  if d.any (fun p => p.1 == k) then
    d.map (fun p => if p.1 == k then (k, v) else p)
  else d ++ [(k, v)]

/-- Python `d[k]` / `k in d` support: look up a key in the modelled dict. -/
def dictLookup (d : List (String × String)) (k : String) : Option String :=
  (d.find? (fun p => p.1 == k)).map (fun p => p.2)

/-- The dict comprehension of `get_lang_file_links` (lines 63-67): keep the
anchors whose stripped label ends with `file_ext`, key them by
`link_text.replace(file_ext, "")`, and store the anchor's href. -/
def build_links_dict (file_links : List Anchor) : List (String × String) :=
  file_links.foldl
    (fun d link =>
      if endsWithExt link.text then
        dictInsert d (removeOccurrences file_ext link.text) link.href
      else d)
    []

/-- `get_lang_file_links` (lines 46-69): fetch the listing page, raise on a
non-200 status, otherwise parse the file-list anchors and build the dict. -/
def get_lang_file_links (net : String → HttpResponse) (parse : String → List Anchor) :
    Except Err (List (String × String)) :=
  let response := net listing_url
  if response.status != 200 then Except.error (Err.fetchError listing_url)
  else Except.ok (build_links_dict (parse response.text))

/-- `download_lang_file_binary` (lines 72-83): look the language code up in
the dict (`KeyError` when absent, as Python indexing would raise), build the
`?format=TEXT` URL, fetch it, raise on a non-200 status, and return the
response body text (still base64-encoded at this point). -/
def download_lang_file_binary (net : String → HttpResponse)
    (links_dict : List (String × String)) (lang_code : String) : Except Err String :=
  match dictLookup links_dict lang_code with
  | none => Except.error (Err.keyError lang_code)
  | some rel =>
    let url := repo_url ++ rel ++ "?format=TEXT"
    let response := net url
    if response.status != 200 then Except.error (Err.fetchError url)
    else Except.ok response.text

/-- The URL `download_lang_file_binary` requests for a given language code
(line 77), used to record the payload fetch in the run trace. -/
def download_url (links_dict : List (String × String)) (lang_code : String) : String :=
  repo_url ++ (dictLookup links_dict lang_code).getD "" ++ "?format=TEXT"

/-- Value of a base64 alphabet character (A-Z, a-z, 0-9, +, /). -/
def b64Index (c : Char) : Option Nat :=
  if 'A' ≤ c ∧ c ≤ 'Z' then some (c.toNat - 65)
  else if 'a' ≤ c ∧ c ≤ 'z' then some (c.toNat - 97 + 26)
  else if '0' ≤ c ∧ c ≤ '9' then some (c.toNat - 48 + 52)
  else if c = '+' then some 62
  else if c = '/' then some 63
  else none

/-- CPython's `binascii.a2b_base64` in its default non-strict mode (as called
by `base64.b64decode`), over the remaining characters.  `quad_pos` is the
position inside the current group of four data characters, `leftchar` holds
the bits carried from the previous data character, and `pads` counts the
padding characters seen at the current quad position.  Following the C
implementation: a non-alphabet character is skipped; an `=` is ignored while
fewer than two data characters of the current quad have been seen, and once
`quad_pos + pads` reaches four the quad is complete and all remaining input
is ignored; a data character resets `pads`; input ending mid-quad raises
`binascii.Error` (a distinct message when exactly one data character is left
over). -/
def a2bBase64 : Nat → Nat → Nat → List Char → Except String (List Nat)
  | quad_pos, _, _, [] =>
    if quad_pos = 0 then Except.ok []
    else if quad_pos = 1 then
      Except.error "Invalid base64-encoded string: number of data characters cannot be 1 more than a multiple of 4"
    else Except.error "Incorrect padding"
  | quad_pos, leftchar, pads, c :: rest =>
    if c = '=' then
      if 2 ≤ quad_pos then
        if 4 ≤ quad_pos + (pads + 1) then Except.ok []
        else a2bBase64 quad_pos leftchar (pads + 1) rest
      else a2bBase64 quad_pos leftchar pads rest
    else
      match b64Index c with
      | none => a2bBase64 quad_pos leftchar pads rest
      | some v =>
        match quad_pos with
        | 0 => a2bBase64 1 v 0 rest
        | 1 => (a2bBase64 2 (v % 16) 0 rest).map
            (fun bs => (leftchar * 4 + v / 16) :: bs)
        | 2 => (a2bBase64 3 (v % 4) 0 rest).map
            (fun bs => (leftchar * 16 + v / 4) :: bs)
        | _ => (a2bBase64 0 0 0 rest).map
            (fun bs => (leftchar * 64 + v) :: bs)

/-- `base64.b64decode` on a `str` argument (line 132): the string is first
encoded as ASCII (any non-ASCII character raises a fatal `ValueError` from
the codec), then decoded by `binascii.a2b_base64` in its default non-strict
mode, starting at quad position zero with no carried bits and no padding
seen. -/
def b64decode (s : String) : Except String (List Nat) :=
  if s.data.any (fun c => 128 ≤ c.toNat) then
    Except.error "ascii codec cannot encode character"
  else a2bBase64 0 0 0 s.data

/-- The composition of `download_lang_file_binary` with `base64.b64decode`
exactly as `main` performs it on lines 131-132: fetch the base64 body, then
decode it to raw bytes; a decoding failure propagates as a fatal error. -/
def downloadDecoded (net : String → HttpResponse) (links_dict : List (String × String))
    (lang_code : String) : Except Err (List Nat) :=
  match download_lang_file_binary net links_dict lang_code with
  | Except.error e => Except.error e
  | Except.ok base64_lang_file =>
    match b64decode base64_lang_file with
    | Except.ok b => Except.ok b
    | Except.error e => Except.error (Err.decodeError e)

/-- `os.path.expanduser`: a leading `~` component is replaced by the home
directory; other paths (including `~user` forms, which the script never
produces) are returned unchanged. -/
def expanduser (home : String) (path : String) : String :=
  if path = "~" then home
  else if ("~/").data.isPrefixOf path.data then home ++ String.mk (path.data.drop 1)
  else path

/-- `os.path.join(directory, file)` for the shapes the script uses: an
absolute second component replaces the first, otherwise the components are
joined with exactly one separator. -/
def pathJoin (directory file : String) : String :=
  if file.data.head? = some '/' then file
  else if directory = "" then file
  else if directory.data.getLast? = some '/' then directory ++ file
  else directory ++ "/" ++ file

/-- The OS-install configuration directory (line 136). -/
def os_install_dir (home : String) : String :=
  expanduser home "~/.config/chromium/Dictionaries/"

/-- The Flatpak-install configuration directory (lines 139-141). -/
def flatpak_install_dir (home : String) : String :=
  expanduser home "~/.var/app/com.github.Eloston.UngoogledChromium/config/chromium/Dictionaries/"

/-- Message printed when no argument is given (lines 109-111). -/
def msgNoArgs : String :=
  "First argument should be the name of the binary language dictionary file you require."

/-- Message printed for an unknown language code (line 118). -/
def msgUnavailable : String := "Unavailable or invalid language code passed."

/-- Notice printed when a custom directory is supplied (lines 125-128). -/
def msgUsingCustom (d : String) : String :=
  "Using custom configuration directory: " ++ d

/-- Message printed by `install_lang_file` after a write (line 92). -/
def msgSaved (lang_code dictionary_file_path : String) : String :=
  "Saved `" ++ lang_code ++ file_ext ++ "` to " ++ dictionary_file_path

/-- Outcome message: custom directory missing (line 166). -/
def msgCustomMissing : String := "Custom installation directory does not exist."

/-- Outcome message: no conventional configuration directory (lines 168-170). -/
def msgNoConfigDir : String :=
  "Couldn\x27t find chromium configuration directory (neither OS install nor Flatpak install)"

/-- Outcome message: directory found but install failed (lines 172-174). -/
def msgInstallFailed : String :=
  "Chromium configuration directory was found but the language file could not be installed. Check permissions."

/-- Outcome message: success (lines 176-178). -/
def msgSuccess : String :=
  "Please restart chromium and check your language settings at chrome://settings/languages"

/-- The lines `print_available` produces (lines 97-101); the Python
`print(list(links_dict.keys()))` is modelled as one entry per key. -/
def availableNamesLines (links_dict : List (String × String)) : List String :=
  ["\nAvailable language file names:"] ++ links_dict.map (fun p => p.1)
    ++ ["\nExample usage:\n\t./spellcheck-installer.py en-GB-10-1"]

/-- `install_lang_file` (lines 86-94): compute
`os.path.join(directory_path, lang_code + file_ext)`, write the bytes there,
print the `Saved ...` line, and return `True`.  Result: the `(path, bytes)`
write performed, the printed message, and the returned boolean. -/
def install_lang_file (lang_code : String) (lang_file_binary : List Nat)
    (directory_path : String) : (String × List Nat) × String × Bool :=
  let dictionary_file_path := pathJoin directory_path (lang_code ++ file_ext)
  ((dictionary_file_path, lang_file_binary),
   msgSaved lang_code dictionary_file_path,
   true)

/-- Applying one recorded write to a directory content (path to bytes map):
`open(path, "wb")` truncates and rewrites, so the path holds exactly the new
bytes afterwards. -/
def fsWrite (fs : List (String × List Nat)) (w : String × List Nat) :
    List (String × List Nat) :=
  fs.filter (fun e => e.1 != w.1) ++ [w]

/-- The environment of one run of `main`: the command line (`sys.argv`,
program name included), the network, the HTML parser, the home directory, and
the set of filesystem paths that exist. -/
structure MainEnv where
  argv : List String
  net : String → HttpResponse
  parse : String → List Anchor
  home : String
  existsDirs : List String

/-- The observable outcome of a completed (non-raising) run of `main`: the
payload URLs fetched, the file writes performed, every printed line, and the
final outcome message of the feedback block (lines 164-178). -/
structure MainResult where
  downloads : List String
  writes : List (String × List Nat)
  messages : List String
  finalMsg : String
deriving DecidableEq

/-- Lines 134-178 of `main`: existence checks for the OS, Flatpak and custom
directories, the install branch (lines 149-162), and the user-feedback chain
(lines 164-178).  Returns the list of `install_lang_file` results (write,
printed line, returned boolean) and the final outcome message.
`custom_install_directory` is `none` when no second argument was given;
Python truthiness of the string is `· != ""`. -/
def installPhase (lang_code : String) (lang_file_binary : List Nat)
    (custom_install_directory : Option String) (home : String)
    (existsDirs : List String) :
    List ((String × List Nat) × String × Bool) × String :=
  let os_dir := os_install_dir home
  let os_install_exists := existsDirs.contains os_dir
  let flatpak_dir := flatpak_install_dir home
  let flatpak_install_exists := existsDirs.contains flatpak_dir
  let customTruthy := custom_install_directory.getD "" != ""
  let custom_directory_exists :=
    customTruthy && existsDirs.contains (custom_install_directory.getD "")
  let installs :=
    if customTruthy && custom_directory_exists then
      [install_lang_file lang_code lang_file_binary (custom_install_directory.getD "")]
    else if !customTruthy then
      (if os_install_exists then
        [install_lang_file lang_code lang_file_binary os_dir]
      else [])
        ++ (if flatpak_install_exists then
            [install_lang_file lang_code lang_file_binary flatpak_dir]
          else [])
    else []
  let lang_file_installed := installs.foldl (fun _ t => t.2.2) false
  let finalMsg :=
    if customTruthy && !custom_directory_exists then msgCustomMissing
    else if !flatpak_install_exists && !os_install_exists then msgNoConfigDir
    else if !lang_file_installed then msgInstallFailed
    else msgSuccess
  (installs, finalMsg)

/-- The optional custom install directory of a run: `expanduser(sys.argv[2])`
when present (lines 122-124). -/
def customOf (env : MainEnv) : Option String :=
  if 3 ≤ env.argv.length then some (expanduser env.home (env.argv.getD 2 "")) else none

/-- Package a run that reached the install phase into a `MainResult`: the one
payload download, the writes and `Saved ...` lines of the installs, the custom
directory notice when one was supplied, and the final outcome message. -/
def mkRunResult (links_dict : List (String × String)) (lang_code : String)
    (lang_file_binary : List Nat) (custom_install_directory : Option String)
    (home : String) (existsDirs : List String) : MainResult :=
  let result := installPhase lang_code lang_file_binary custom_install_directory home existsDirs
  ⟨[download_url links_dict lang_code],
   result.1.map (fun t => t.1),
   (match custom_install_directory with
    | some d => [msgUsingCustom d]
    | none => []) ++ result.1.map (fun t => t.2.1) ++ [result.2],
   result.2⟩

/-- `main` (lines 104-180): fetch and parse the listing, handle the no-args
and unknown-name early exits, download and decode the selected file, then run
the install phase and feedback chain.  (Named `mainRun` because `main` is a
reserved entry-point name in Lean.) -/
def mainRun (env : MainEnv) : Except Err MainResult :=
  match get_lang_file_links env.net env.parse with
  | Except.error e => Except.error e
  | Except.ok links_dict =>
    if env.argv.length < 2 then
      Except.ok ⟨[], [], msgNoArgs :: availableNamesLines links_dict, msgNoArgs⟩
    else if (dictLookup links_dict (env.argv.getD 1 "")).isNone then
      Except.ok ⟨[], [], msgUnavailable :: availableNamesLines links_dict, msgUnavailable⟩
    else
      match download_lang_file_binary env.net links_dict (env.argv.getD 1 "") with
      | Except.error e => Except.error e
      | Except.ok base64_lang_file =>
        match b64decode base64_lang_file with
        | Except.error e => Except.error (Err.decodeError e)
        | Except.ok lang_file_binary =>
          Except.ok (mkRunResult links_dict (env.argv.getD 1 "") lang_file_binary
            (customOf env) env.home env.existsDirs)

/-- The keys that the dict comprehension of `get_lang_file_links` produces, in
anchor order (used to state when no key collision happens). -/
def keptKeys (anchors : List Anchor) : List String :=
  (anchors.filter (fun a => endsWithExt a.text)).map
    (fun a => removeOccurrences file_ext a.text)

/-- Concrete run for C1: a custom directory is supplied and exists, the
download succeeds, and neither conventional directory exists. -/
def envC1 : MainEnv :=
  ⟨["./spellcheck-installer.py", "en-GB-10-1", "/custom/dicts"],
   fun _ => ⟨200, "YWJj"⟩,
   fun _ => [⟨"en-GB-10-1.bdic", "/chromium/deps/hunspell_dictionaries/+/master/en-GB-10-1.bdic"⟩],
   "/home/user",
   ["/custom/dicts"]⟩

/-- Concrete anchors for the C2 witness. -/
def anchorsC2 : List Anchor :=
  [⟨"en-GB-10-1.bdic", "/a"⟩, ⟨"readme.txt", "/b"⟩]

/-- Concrete run for the C4 witness: custom directory "/c" supplied but
absent, while both conventional directories exist. -/
def envC4 : MainEnv :=
  ⟨["./spellcheck-installer.py", "en", "/c"],
   fun _ => ⟨200, "YWJj"⟩,
   fun _ => [⟨"en.bdic", "/p"⟩],
   "/h",
   [os_install_dir "/h", flatpak_install_dir "/h"]⟩

/-- Concrete run for the C5 witness: no custom directory, both conventional
directories exist. -/
def envC5 : MainEnv :=
  ⟨["./spellcheck-installer.py", "en"],
   fun _ => ⟨200, "YWJj"⟩,
   fun _ => [⟨"en.bdic", "/p"⟩],
   "/h",
   [os_install_dir "/h", flatpak_install_dir "/h"]⟩

/-- Concrete run for the C6 witness: the requested name is not in the
listing. -/
def envC6 : MainEnv :=
  ⟨["./spellcheck-installer.py", "zz"],
   fun _ => ⟨200, "YWJj"⟩,
   fun _ => [⟨"en.bdic", "/p"⟩],
   "/h",
   []⟩

/-- Concrete run for the C9 witness (a completed no-argument run). -/
def envC9 : MainEnv :=
  ⟨["./spellcheck-installer.py"],
   fun _ => ⟨200, ""⟩,
   fun _ => [⟨"en.bdic", "/p"⟩],
   "/h",
   []⟩

/-- The `MainResult` of the C9 witness run. -/
def resC9 : MainResult :=
  ⟨[], [], msgNoArgs :: availableNamesLines [("en", "/p")], msgNoArgs⟩

theorem dictInsert_of_not_mem (d : List (String × String)) (k v : String)
    (h : ∀ p ∈ d, p.1 ≠ k) : dictInsert d k v = d ++ [(k, v)] := by
  unfold dictInsert
  rw [if_neg]
  simp only [List.any_eq_true, beq_iff_eq, not_exists]
  intro p
  intro hp
  exact h p hp.1 hp.2

theorem build_links_dict_fold (anchors : List Anchor) :
    ∀ d : List (String × String),
      (keptKeys anchors).Nodup →
      (∀ k ∈ keptKeys anchors, ∀ p ∈ d, p.1 ≠ k) →
      anchors.foldl
        (fun d link =>
          if endsWithExt link.text then
            dictInsert d (removeOccurrences file_ext link.text) link.href
          else d) d
        = d ++ (anchors.filter (fun a => endsWithExt a.text)).map
            (fun a => (removeOccurrences file_ext a.text, a.href)) := by
  induction anchors with
  | nil =>
    intro d _ _
    simp
  | cons a rest ih =>
    intro d hnd hdis
    by_cases ha : endsWithExt a.text = true
    · have hkept : keptKeys (a :: rest)
          = removeOccurrences file_ext a.text :: keptKeys rest := by
        simp [keptKeys, List.filter_cons, ha]
      rw [hkept] at hnd hdis
      have hnotd : ∀ p ∈ d, p.1 ≠ removeOccurrences file_ext a.text :=
        fun p hp => hdis _ (List.mem_cons_self _ _) p hp
      have hnd' : (keptKeys rest).Nodup := (List.nodup_cons.mp hnd).2
      have hnotrest : removeOccurrences file_ext a.text ∉ keptKeys rest :=
        (List.nodup_cons.mp hnd).1
      have hdis' : ∀ k ∈ keptKeys rest,
          ∀ p ∈ d ++ [(removeOccurrences file_ext a.text, a.href)], p.1 ≠ k := by
        intro k hk p hp
        rcases List.mem_append.mp hp with hp | hp
        · exact hdis k (List.mem_cons_of_mem _ hk) p hp
        · rcases List.mem_singleton.mp hp with rfl
          intro hcontra
          apply hnotrest
          rw [show removeOccurrences file_ext a.text = k from hcontra]
          exact hk
      rw [List.foldl_cons, if_pos ha,
        dictInsert_of_not_mem d _ a.href hnotd,
        ih _ hnd' hdis']
      simp [List.filter_cons, ha]
    · have hkept : keptKeys (a :: rest) = keptKeys rest := by
        simp [keptKeys, List.filter_cons, ha]
      rw [hkept] at hnd hdis
      rw [List.foldl_cons, if_neg ha, ih _ hnd hdis]
      simp [List.filter_cons, ha]

/-- C2 counterexample: for the anchor label "a.bdicb.bdic" the claim demands
the key "a.bdicb" (only the trailing ".bdic" removed, the interior occurrence
unchanged), but the script's `link_text.replace(file_ext, "")` removes every
occurrence and produces the key "ab". -/
theorem c2_counterexample :
    build_links_dict [⟨"a.bdicb.bdic", "/x"⟩] = [("ab", "/x")] ∧
      ("ab" : String) ≠ "a.bdicb" := ⟨rfl, by decide⟩

/-- C2 (amended): for every anchor list whose kept labels yield pairwise
distinct keys, an entry is kept iff its label ends with ".bdic", the map key
is the label with every occurrence of ".bdic" removed (Python `str.replace`
semantics), and the map value is the anchor's href. -/
theorem c2_amended_replace_all (anchors : List Anchor)
    (hnodup : (keptKeys anchors).Nodup) :
    build_links_dict anchors
      = (anchors.filter (fun a => endsWithExt a.text)).map
          (fun a => (removeOccurrences file_ext a.text, a.href)) := by
  unfold build_links_dict
  rw [build_links_dict_fold anchors [] hnodup (by intro k _ p hp; cases hp)]
  exact List.nil_append _

/-- C2 witness: `c2_amended_replace_all` applied to a concrete anchor list. -/
theorem c2_amended_witness :
    (keptKeys anchorsC2).Nodup ∧
      build_links_dict anchorsC2
        = (anchorsC2.filter (fun a => endsWithExt a.text)).map
            (fun a => (removeOccurrences file_ext a.text, a.href)) :=
  ⟨by decide, c2_amended_replace_all anchorsC2 (by decide)⟩

/-- C7: both fetches succeed exactly when the HTTP status is 200 ("success");
on any other status they raise the fetch `Exception` for the requested URL,
aborting the run with no retry. -/
theorem c7_fetch_error_iff_non_200 (net : String → HttpResponse)
    (parse : String → List Anchor) (links_dict : List (String × String))
    (lang_code rel : String)
    (hkey : dictLookup links_dict lang_code = some rel) :
    ((∃ d, get_lang_file_links net parse = Except.ok d)
        ↔ (net listing_url).status = 200) ∧
    ((net listing_url).status ≠ 200 →
      get_lang_file_links net parse = Except.error (Err.fetchError listing_url)) ∧
    ((∃ s, download_lang_file_binary net links_dict lang_code = Except.ok s)
        ↔ (net (repo_url ++ rel ++ "?format=TEXT")).status = 200) ∧
    ((net (repo_url ++ rel ++ "?format=TEXT")).status ≠ 200 →
      download_lang_file_binary net links_dict lang_code
        = Except.error (Err.fetchError (repo_url ++ rel ++ "?format=TEXT"))) := by
  unfold get_lang_file_links download_lang_file_binary
  rw [hkey]
  by_cases h1 : (net listing_url).status = 200 <;>
    by_cases h2 : (net (repo_url ++ rel ++ "?format=TEXT")).status = 200 <;>
      simp [h1, h2]

/-- C7 witness: `c7_fetch_error_iff_non_200` at a concrete network and
listing. -/
theorem c7_witness :
    dictLookup [("en", "/p")] "en" = some "/p" ∧
    (((∃ d, get_lang_file_links (fun _ => ⟨200, "body"⟩) (fun _ => [])
          = Except.ok d)
        ↔ ((fun _ => (⟨200, "body"⟩ : HttpResponse)) listing_url).status = 200) ∧
      (((fun _ => (⟨200, "body"⟩ : HttpResponse)) listing_url).status ≠ 200 →
        get_lang_file_links (fun _ => ⟨200, "body"⟩) (fun _ => [])
          = Except.error (Err.fetchError listing_url)) ∧
      ((∃ s, download_lang_file_binary (fun _ => ⟨200, "body"⟩) [("en", "/p")] "en"
            = Except.ok s)
        ↔ ((fun _ => (⟨200, "body"⟩ : HttpResponse))
            (repo_url ++ "/p" ++ "?format=TEXT")).status = 200) ∧
      (((fun _ => (⟨200, "body"⟩ : HttpResponse))
            (repo_url ++ "/p" ++ "?format=TEXT")).status ≠ 200 →
        download_lang_file_binary (fun _ => ⟨200, "body"⟩) [("en", "/p")] "en"
          = Except.error (Err.fetchError (repo_url ++ "/p" ++ "?format=TEXT")))) :=
  ⟨rfl, c7_fetch_error_iff_non_200 (fun _ => ⟨200, "body"⟩) (fun _ => [])
    [("en", "/p")] "en" "/p" rfl⟩

theorem filter_ne_then_filter_eq (xs : List (String × List Nat)) (p : String) :
    (xs.filter (fun e => e.1 != p)).filter (fun e => e.1 == p) = [] := by
  induction xs with
  | nil => rfl
  | cons x t ih =>
    by_cases hx : x.1 = p
    · simp [List.filter_cons, hx, ih]
    · simp [List.filter_cons, hx, ih]

/-- C8: `install_lang_file` writes the payload to
`os.path.join(directory, name + ".bdic")`, overwriting without confirmation
and returning `True`; installing the same name twice into the same directory
succeeds both times and leaves exactly one file for that name, holding the
second payload. -/
theorem c8_install_idempotent (fs : List (String × List Nat))
    (lang_code directory : String) (p1 p2 : List Nat) :
    (install_lang_file lang_code p1 directory).2.2 = true ∧
    (install_lang_file lang_code p2 directory).2.2 = true ∧
    (install_lang_file lang_code p2 directory).1.1
      = pathJoin directory (lang_code ++ file_ext) ∧
    (fsWrite (fsWrite fs (install_lang_file lang_code p1 directory).1)
        (install_lang_file lang_code p2 directory).1).filter
      (fun e => e.1 == pathJoin directory (lang_code ++ file_ext))
      = [(pathJoin directory (lang_code ++ file_ext), p2)] := by
  refine ⟨rfl, rfl, rfl, ?_⟩
  simp only [install_lang_file, fsWrite, List.filter_append]
  simp [filter_ne_then_filter_eq]

theorem installPhase_custom_missing (lang_code : String) (bin : List Nat)
    (c home : String) (ex : List String)
    (hne : c ≠ "") (hex : ex.contains c = false) :
    installPhase lang_code bin (some c) home ex = ([], msgCustomMissing) := by
  have hex' : c ∉ ex := by simpa using hex
  simp [installPhase, hne, hex']

theorem installPhase_custom_writes (lang_code : String) (bin : List Nat)
    (c home : String) (ex : List String) (hne : c ≠ "") :
    ∀ t ∈ (installPhase lang_code bin (some c) home ex).1,
      t.1.1 = pathJoin c (lang_code ++ file_ext) := by
  intro t ht
  by_cases hex : c ∈ ex
  · have htt : t = install_lang_file lang_code bin c := by
      simpa [installPhase, hne, hex] using ht
    rw [htt]
    rfl
  · simp [installPhase, hne, hex] at ht

theorem installPhase_none_both (lang_code : String) (bin : List Nat)
    (home : String) (ex : List String)
    (hos : ex.contains (os_install_dir home) = true)
    (hfp : ex.contains (flatpak_install_dir home) = true) :
    installPhase lang_code bin none home ex
      = ([install_lang_file lang_code bin (os_install_dir home),
          install_lang_file lang_code bin (flatpak_install_dir home)],
         msgSuccess) := by
  have hos' : os_install_dir home ∈ ex := by simpa using hos
  have hfp' : flatpak_install_dir home ∈ ex := by simpa using hfp
  simp [installPhase, hos', hfp', install_lang_file]

theorem installPhase_finalMsg_ne_failed (lang_code : String) (bin : List Nat)
    (custom : Option String) (home : String) (ex : List String) :
    (installPhase lang_code bin custom home ex).2 ≠ msgInstallFailed := by
  by_cases hct : custom.getD "" = "" <;>
    by_cases hce : custom.getD "" ∈ ex <;>
      by_cases hos : os_install_dir home ∈ ex <;>
        by_cases hfp : flatpak_install_dir home ∈ ex <;>
          simp [installPhase, hct, hce, hos, hfp, install_lang_file] <;> decide

theorem mainRun_install_phase (env : MainEnv) (a0 nm : String) (rest : List String)
    (links_dict : List (String × String)) (rel b64txt : String) (bin : List Nat)
    (hargv : env.argv = a0 :: nm :: rest)
    (hfetch : get_lang_file_links env.net env.parse = Except.ok links_dict)
    (hkey : dictLookup links_dict nm = some rel)
    (hdl : download_lang_file_binary env.net links_dict nm = Except.ok b64txt)
    (hdec : b64decode b64txt = Except.ok bin) :
    mainRun env
      = Except.ok (mkRunResult links_dict nm bin (customOf env) env.home env.existsDirs) := by
  have hlen : ¬ env.argv.length < 2 := by rw [hargv]; simp
  have h1 : env.argv[1]?.getD "" = nm := by rw [hargv]; simp
  simp [mainRun, hfetch, hlen, h1, hkey, hdl, hdec]

/-- C3: for every listing and every name present as a key, the composite
download step of `main` (lines 131-132: `download_lang_file_binary` followed
by `base64.b64decode`) returns the response body decoded from base64 into raw
bytes, and a malformed (non-base64) body makes it propagate the fatal decoding
error to the caller with no recovery. -/
theorem c3_download_decodes (net : String → HttpResponse)
    (links_dict : List (String × String)) (lang_code rel : String)
    (hkey : dictLookup links_dict lang_code = some rel)
    (hstatus : (net (repo_url ++ rel ++ "?format=TEXT")).status = 200) :
    (∀ b, b64decode (net (repo_url ++ rel ++ "?format=TEXT")).text = Except.ok b →
        downloadDecoded net links_dict lang_code = Except.ok b) ∧
    (∀ e, b64decode (net (repo_url ++ rel ++ "?format=TEXT")).text = Except.error e →
        downloadDecoded net links_dict lang_code = Except.error (Err.decodeError e)) := by
  unfold downloadDecoded download_lang_file_binary
  rw [hkey]
  simp only [hstatus, bne_self_eq_false, Bool.false_eq_true, if_false]
  constructor
  · intro b hb
    rw [hb]
  · intro e he
    rw [he]

/-- C3 witness: `c3_download_decodes` at a concrete network whose payload body
"YQ" is malformed base64, showing the fatal `Incorrect padding` error
propagate. -/
theorem c3_witness :
    dictLookup [("en", "/p")] "en" = some "/p" ∧
    ((fun _ => (⟨200, "YQ"⟩ : HttpResponse))
        (repo_url ++ "/p" ++ "?format=TEXT")).status = 200 ∧
    ((∀ b, b64decode ((fun _ => (⟨200, "YQ"⟩ : HttpResponse))
            (repo_url ++ "/p" ++ "?format=TEXT")).text = Except.ok b →
        downloadDecoded (fun _ => ⟨200, "YQ"⟩) [("en", "/p")] "en" = Except.ok b) ∧
      (∀ e, b64decode ((fun _ => (⟨200, "YQ"⟩ : HttpResponse))
            (repo_url ++ "/p" ++ "?format=TEXT")).text = Except.error e →
        downloadDecoded (fun _ => ⟨200, "YQ"⟩) [("en", "/p")] "en"
          = Except.error (Err.decodeError e))) :=
  ⟨rfl, rfl, c3_download_decodes (fun _ => ⟨200, "YQ"⟩) [("en", "/p")] "en" "/p" rfl rfl⟩

/-- C4: when a custom directory override is supplied (and nonempty after
expansion), every write of the run targets the override path — the
conventional-directory branch never runs — and when the override does not
exist, no write occurs anywhere and the outcome is the custom-directory
missing message, regardless of which conventional directories exist. -/
theorem c4_override_exclusive (env : MainEnv) (a0 nm cd : String)
    (links_dict : List (String × String)) (rel b64txt : String) (bin : List Nat)
    (hargv : env.argv = [a0, nm, cd])
    (hfetch : get_lang_file_links env.net env.parse = Except.ok links_dict)
    (hkey : dictLookup links_dict nm = some rel)
    (hdl : download_lang_file_binary env.net links_dict nm = Except.ok b64txt)
    (hdec : b64decode b64txt = Except.ok bin)
    (htruthy : expanduser env.home cd ≠ "") :
    ∃ r, mainRun env = Except.ok r ∧
      (∀ w ∈ r.writes, w.1 = pathJoin (expanduser env.home cd) (nm ++ file_ext)) ∧
      (env.existsDirs.contains (expanduser env.home cd) = false →
        r.writes = [] ∧ r.finalMsg = msgCustomMissing) := by
  have hmain := mainRun_install_phase env a0 nm [cd] links_dict rel b64txt bin
    hargv hfetch hkey hdl hdec
  have hcust : customOf env = some (expanduser env.home cd) := by
    unfold customOf
    rw [hargv]
    simp [List.getD]
  refine ⟨_, hmain, ?_, ?_⟩
  · intro w hw
    simp only [mkRunResult, hcust] at hw
    rcases List.mem_map.mp hw with ⟨t, ht, rfl⟩
    exact installPhase_custom_writes nm bin _ env.home env.existsDirs htruthy t ht
  · intro hnex
    constructor <;>
      simp [mkRunResult, hcust,
        installPhase_custom_missing nm bin _ env.home env.existsDirs htruthy hnex]

/-- C4 witness: `c4_override_exclusive` on a run where the custom directory
"/c" is missing while both conventional directories exist. -/
theorem c4_witness :
    envC4.argv = ["./spellcheck-installer.py", "en", "/c"] ∧
    get_lang_file_links envC4.net envC4.parse = Except.ok [("en", "/p")] ∧
    dictLookup [("en", "/p")] "en" = some "/p" ∧
    download_lang_file_binary envC4.net [("en", "/p")] "en" = Except.ok "YWJj" ∧
    b64decode "YWJj" = Except.ok [97, 98, 99] ∧
    expanduser envC4.home "/c" ≠ "" ∧
    (∃ r, mainRun envC4 = Except.ok r ∧
      (∀ w ∈ r.writes, w.1 = pathJoin (expanduser envC4.home "/c") ("en" ++ file_ext)) ∧
      (envC4.existsDirs.contains (expanduser envC4.home "/c") = false →
        r.writes = [] ∧ r.finalMsg = msgCustomMissing)) :=
  ⟨rfl, rfl, rfl, rfl, rfl, by decide,
    c4_override_exclusive envC4 "./spellcheck-installer.py" "en" "/c"
      [("en", "/p")] "/p" "YWJj" [97, 98, 99] rfl rfl rfl rfl rfl (by decide)⟩

/-- C5: with a valid selected name, no custom directory argument, and both
conventional directories existing, the run writes the decoded payload to both
paths (OS install first, Flatpak install second), prints the per-directory
`Saved ...` line for each, and reports success. -/
theorem c5_both_conventional (env : MainEnv) (a0 nm : String)
    (links_dict : List (String × String)) (rel b64txt : String) (bin : List Nat)
    (hargv : env.argv = [a0, nm])
    (hfetch : get_lang_file_links env.net env.parse = Except.ok links_dict)
    (hkey : dictLookup links_dict nm = some rel)
    (hdl : download_lang_file_binary env.net links_dict nm = Except.ok b64txt)
    (hdec : b64decode b64txt = Except.ok bin)
    (hos : env.existsDirs.contains (os_install_dir env.home) = true)
    (hfp : env.existsDirs.contains (flatpak_install_dir env.home) = true) :
    ∃ r, mainRun env = Except.ok r ∧
      r.writes = [(pathJoin (os_install_dir env.home) (nm ++ file_ext), bin),
                  (pathJoin (flatpak_install_dir env.home) (nm ++ file_ext), bin)] ∧
      msgSaved nm (pathJoin (os_install_dir env.home) (nm ++ file_ext)) ∈ r.messages ∧
      msgSaved nm (pathJoin (flatpak_install_dir env.home) (nm ++ file_ext)) ∈ r.messages ∧
      r.finalMsg = msgSuccess := by
  have hmain := mainRun_install_phase env a0 nm [] links_dict rel b64txt bin
    hargv hfetch hkey hdl hdec
  have hcust : customOf env = none := by
    unfold customOf
    rw [hargv]
    simp
  refine ⟨_, hmain, ?_, ?_, ?_, ?_⟩ <;>
    simp [mkRunResult, hcust,
      installPhase_none_both nm bin env.home env.existsDirs hos hfp, install_lang_file]

/-- C5 witness: `c5_both_conventional` on a concrete run with both
conventional directories present. -/
theorem c5_witness :
    envC5.argv = ["./spellcheck-installer.py", "en"] ∧
    get_lang_file_links envC5.net envC5.parse = Except.ok [("en", "/p")] ∧
    dictLookup [("en", "/p")] "en" = some "/p" ∧
    download_lang_file_binary envC5.net [("en", "/p")] "en" = Except.ok "YWJj" ∧
    b64decode "YWJj" = Except.ok [97, 98, 99] ∧
    envC5.existsDirs.contains (os_install_dir envC5.home) = true ∧
    envC5.existsDirs.contains (flatpak_install_dir envC5.home) = true ∧
    (∃ r, mainRun envC5 = Except.ok r ∧
      r.writes = [(pathJoin (os_install_dir envC5.home) ("en" ++ file_ext), [97, 98, 99]),
                  (pathJoin (flatpak_install_dir envC5.home) ("en" ++ file_ext), [97, 98, 99])] ∧
      msgSaved "en" (pathJoin (os_install_dir envC5.home) ("en" ++ file_ext)) ∈ r.messages ∧
      msgSaved "en" (pathJoin (flatpak_install_dir envC5.home) ("en" ++ file_ext)) ∈ r.messages ∧
      r.finalMsg = msgSuccess) :=
  ⟨rfl, rfl, rfl, rfl, rfl, by decide, by decide,
    c5_both_conventional envC5 "./spellcheck-installer.py" "en"
      [("en", "/p")] "/p" "YWJj" [97, 98, 99] rfl rfl rfl rfl rfl (by decide) (by decide)⟩

/-- C6: when the supplied name is not a key of the fetched listing, the run
completes normally (no exception), fetches no payload URL, writes no file, and
prints the error message followed by the available-names listing. -/
theorem c6_unknown_name (env : MainEnv) (links_dict : List (String × String))
    (hfetch : get_lang_file_links env.net env.parse = Except.ok links_dict)
    (hlen : 2 ≤ env.argv.length)
    (hmiss : dictLookup links_dict (env.argv.getD 1 "") = none) :
    mainRun env
      = Except.ok ⟨[], [], msgUnavailable :: availableNamesLines links_dict,
          msgUnavailable⟩ := by
  have hmiss' : dictLookup links_dict (env.argv[1]?.getD "") = none := by
    simpa using hmiss
  simp [mainRun, hfetch, hmiss', Nat.not_lt.mpr hlen]

/-- C6 witness: `c6_unknown_name` on a concrete run requesting the unknown
name "zz". -/
theorem c6_witness :
    get_lang_file_links envC6.net envC6.parse = Except.ok [("en", "/p")] ∧
    2 ≤ envC6.argv.length ∧
    dictLookup [("en", "/p")] (envC6.argv.getD 1 "") = none ∧
    mainRun envC6
      = Except.ok ⟨[], [], msgUnavailable :: availableNamesLines [("en", "/p")],
          msgUnavailable⟩ :=
  ⟨rfl, by decide, rfl, c6_unknown_name envC6 [("en", "/p")] rfl (by decide) rfl⟩

/-- C1 (code bug evidence): in the run `envC1` a custom directory is
supplied, exists, and the write succeeds (one write is recorded), yet the
reported outcome is the "no chromium configuration directory" message rather
than the success message, because the feedback condition on line 167 omits
the "no custom directory was requested" guard that the spec's outcome 2
states: it fires whenever neither conventional directory exists. -/
theorem c1_custom_success_misreported :
    mainRun envC1 = Except.ok
      ⟨["https://chromium.googlesource.com/chromium/deps/hunspell_dictionaries/+/master/en-GB-10-1.bdic?format=TEXT"],
       [("/custom/dicts/en-GB-10-1.bdic", [97, 98, 99])],
       [msgUsingCustom "/custom/dicts",
        msgSaved "en-GB-10-1" "/custom/dicts/en-GB-10-1.bdic",
        msgNoConfigDir],
       msgNoConfigDir⟩ ∧
    msgNoConfigDir ≠ msgSuccess := ⟨rfl, by decide⟩

/-- C9: `install_lang_file` returns `true` whenever it returns, so in every
completed run — in particular every run in which a selected install directory
exists — the "configuration directory was found but the language file could
not be installed" branch (lines 171-174) is unreachable: that message is
never the reported outcome. -/
theorem c9_install_failed_unreachable (env : MainEnv) (r : MainResult)
    (hok : mainRun env = Except.ok r)
    (lang_code : String) (bin : List Nat) (directory : String) :
    (install_lang_file lang_code bin directory).2.2 = true ∧
    r.finalMsg ≠ msgInstallFailed := by
  refine ⟨rfl, ?_⟩
  unfold mainRun at hok
  split at hok
  · exact Except.noConfusion hok
  · split at hok
    · injection hok with h
      subst h
      show msgNoArgs ≠ msgInstallFailed
      decide
    · split at hok
      · injection hok with h
        subst h
        show msgUnavailable ≠ msgInstallFailed
        decide
      · split at hok
        · exact Except.noConfusion hok
        · split at hok
          · exact Except.noConfusion hok
          · injection hok with h
            subst h
            exact installPhase_finalMsg_ne_failed _ _ _ _ _

/-- C9 witness: `c9_install_failed_unreachable` at the concrete completed run
`envC9`. -/
theorem c9_witness :
    mainRun envC9 = Except.ok resC9 ∧
      ((install_lang_file "en" [97] "/d").2.2 = true ∧
        resC9.finalMsg ≠ msgInstallFailed) :=
  ⟨rfl, c9_install_failed_unreachable envC9 resC9 rfl "en" [97] "/d"⟩

/-- C10: when the second command-line argument is the empty string, the
expanded custom directory is the empty (falsy) string, so the run checks and
installs into the conventional directories exactly as a run with no custom
directory argument would: the payload fetches, file writes, and final outcome
message all coincide. -/
theorem c10_empty_custom_like_none (a0 nm : String) (net : String → HttpResponse)
    (parse : String → List Anchor) (home : String) (existsDirs : List String) :
    (mainRun ⟨[a0, nm, ""], net, parse, home, existsDirs⟩).map
        (fun r => (r.downloads, r.writes, r.finalMsg))
      = (mainRun ⟨[a0, nm], net, parse, home, existsDirs⟩).map
          (fun r => (r.downloads, r.writes, r.finalMsg)) := by
  have hcust3 : customOf ⟨[a0, nm, ""], net, parse, home, existsDirs⟩ = some "" := by
    simp [customOf, show expanduser home "" = "" from rfl]
  have hcust2 : customOf ⟨[a0, nm], net, parse, home, existsDirs⟩ = none := by
    simp [customOf]
  simp only [mainRun]
  cases hf : get_lang_file_links net parse with
  | error e => rfl
  | ok links_dict =>
    simp only []
    by_cases hk : (dictLookup links_dict nm).isNone
    · simp [hk]
    · simp only [List.getD]
      simp [hk]
      cases hd : download_lang_file_binary net links_dict nm with
      | error e => rfl
      | ok b64txt =>
        cases hb : b64decode b64txt with
        | error e => simp [hb, Except.map]
        | ok bin =>
          simp [hb, hcust3, hcust2, mkRunResult, Except.map,
            show installPhase nm bin (some "") home existsDirs
              = installPhase nm bin none home existsDirs from rfl]

theorem b64decode_cpython_samples :
    b64decode "YWJj" = Except.ok [97, 98, 99] ∧
    b64decode "YWJj=" = Except.ok [97, 98, 99] ∧
    b64decode "=YWJj" = Except.ok [97, 98, 99] ∧
    b64decode "YQ==YQ==" = Except.ok [97] ∧
    b64decode "YWJ=" = Except.ok [97, 98] ∧
    b64decode "!!!" = Except.ok [] ∧
    b64decode "YQ" = Except.error "Incorrect padding" ∧
    b64decode "YWJjé" = Except.error "ascii codec cannot encode character" ∧
    b64decode "é" = Except.error "ascii codec cannot encode character" :=
  ⟨rfl, rfl, rfl, rfl, rfl, rfl, rfl, rfl, rfl⟩
